import Mathlib

/-!
Shallow embedding of the Sacrilege Engine death-judgment module
(`src/intelligence/death_analyzer.py`) together with the round-change handler
of the radar replayer (`radar/radar_replayer.py`), and proofs about the
engine's blame scoring, rule classification, trade resolution, crossfire
geometry, round lifecycle and rankings.

Modelling conventions:
* Python floats are modelled as rationals (`ℚ`); ticks and round numbers as
  integers (`ℤ`).
* The source computes Euclidean distances with `math.sqrt(dx*dx + dy*dy)` and
  only ever uses a distance by comparing it against a nonnegative constant
  threshold or by taking minima of such distances with the nonnegative
  sentinel `9999`.  Since squaring is strictly monotone on nonnegatives, the
  embedding carries the *square* of every distance and compares it against
  the squared threshold; this decides exactly the same predicates.  The
  `teammate_distance` field of an analysis is accordingly represented by its
  square `teammate_distSq` (sentinel `9999` becomes `9999^2 = 99980001`).
* Python dicts (`player_stats`, `mistake_counts`) preserve insertion order;
  they are modelled as association lists where a fresh key is appended at the
  end.
* The `reasons` strings of an analysis are human-readable audit text built
  alongside the `mistakes` list (one reason per triggered rule); they carry
  no information used by any computation and are omitted from the embedding.
* The enemy-bearing sector `int((atan2(dy,dx) + pi) / (pi/4)) % 8` is an
  index into eight 45-degree sectors whose boundaries are the four half-axes
  and four diagonals; membership of a rational vector in each sector is
  decided by sign comparisons of `dx`, `dy`, `dx - dy` and `dx + dy`, which
  is how `sector` below computes the very same index without transcendental
  functions (see the doc comment of `sector`).
-/

set_option allowUnsafeReducibility true
attribute [local semireducible] Rat.add Rat.mul Rat.sub Rat.inv Rat.div Rat.ofScientific

namespace Sacrilege

/-- A 2D position (the source passes float pairs). -/
structure Pos where
  x : ℚ
  y : ℚ
deriving DecidableEq

/-- Squared Euclidean distance; the source computes
`math.sqrt(dx*dx + dy*dy)` (see the modelling conventions above). -/
def sqDist (p q : Pos) : ℚ :=
  (p.x - q.x) * (p.x - q.x) + (p.y - q.y) * (p.y - q.y)

/-- A participant snapshot entry: the source reads the dict keys
`name`, `team` (absent keys give `None`), `alive` (default `False`),
`x` and `y` (default `0`). -/
structure Player where
  name : Option String
  team : Option String
  alive : Bool
  x : ℚ
  y : ℚ
deriving DecidableEq

/-- The kill event dict: the source reads `victim` (default `'?'`),
`attacker` (default `'?'`), `victim_team` (default `'CT'`) and
`victim_pos` (used only when truthy and carrying `.x`/`.y`). -/
structure KillEvent where
  victim : Option String
  attacker : Option String
  victim_team : Option String
  victim_pos : Option Pos
deriving DecidableEq

/-- A recent-elimination record: the source reads `victim` and
`tick` (default `0`). -/
structure KillRecord where
  victim : Option String
  tick : Option ℤ
deriving DecidableEq

/-- A flash effect: the source reads the required keys `start`, `x`, `y`. -/
structure Flash where
  start : ℤ
  x : ℚ
  y : ℚ
deriving DecidableEq

/-- A molotov effect: the source reads the required keys `start`, `end`
(called `finish` here, `end` being reserved), `x`, `y`. -/
structure Molly where
  start : ℤ
  finish : ℤ
  x : ℚ
  y : ℚ
deriving DecidableEq

/-- A smoke effect: `analyze_death` receives the smoke list but never reads
it, so no field is needed. -/
structure Smoke where
deriving DecidableEq

/-- Types of tactical mistakes (the `MistakeType` enum). -/
inductive MistakeType where
  | ISOLATED
  | CROSSFIRE
  | SOLO_PUSH
  | NO_TRADE
  | WIDE_PEEK
  | UTILITY_DEATH
  | FLASHED
  | IN_MOLLY
  | OUTNUMBERED
  | REPEEKER
  | FIRST_CONTACT
  | BAD_TIMING
  | CLUTCH_ATTEMPT
  | FAIR_DUEL
  | TRADED
deriving DecidableEq

/-- The string value of each enum member. -/
def MistakeType.value : MistakeType → String
  | .ISOLATED => "isolated"
  | .CROSSFIRE => "crossfire"
  | .SOLO_PUSH => "solo_push"
  | .NO_TRADE => "no_trade"
  | .WIDE_PEEK => "wide_peek"
  | .UTILITY_DEATH => "utility"
  | .FLASHED => "flashed"
  | .IN_MOLLY => "in_molly"
  | .OUTNUMBERED => "outnumbered"
  | .REPEEKER => "repeeker"
  | .FIRST_CONTACT => "first"
  | .BAD_TIMING => "timing"
  | .CLUTCH_ATTEMPT => "clutch"
  | .FAIR_DUEL => "fair_duel"
  | .TRADED => "traded"

/-- Complete death analysis result (`DeathAnalysis`).  `teammate_distSq`
carries the square of the source's `teammate_distance`; the audit-only
`reasons` strings are omitted (modelling conventions above). -/
structure DeathAnalysis where
  victim_name : String
  victim_team : String
  attacker_name : String
  tick : ℤ
  round_num : ℤ
  position : Pos
  mistakes : List MistakeType
  severity : ℕ
  was_tradeable : Bool
  was_traded : Bool
  teammate_distSq : ℚ
  was_flashed : Bool
  in_utility : Bool
  enemy_count : ℕ
  teammate_count : ℕ
deriving DecidableEq

/-- The fixed priority list of `DeathAnalysis.primary_mistake`. -/
def mistakePriority : List MistakeType :=
  [.ISOLATED, .CROSSFIRE, .SOLO_PUSH, .NO_TRADE, .WIDE_PEEK, .UTILITY_DEATH,
   .FLASHED, .IN_MOLLY, .OUTNUMBERED, .REPEEKER, .FIRST_CONTACT, .BAD_TIMING,
   .CLUTCH_ATTEMPT, .TRADED, .FAIR_DUEL]

/-- Get worst mistake (`DeathAnalysis.primary_mistake`). -/
def DeathAnalysis.primary_mistake (a : DeathAnalysis) : MistakeType :=
  match mistakePriority.find? (fun m => a.mistakes.contains m) with
  | some m => m
  | none => a.mistakes.headD .FAIR_DUEL

/-- Calculate blame score 0-100 (`DeathAnalysis.blame_score`).  The source
condition `teammate_distance > 1000` becomes `teammate_distSq > 1000000`. -/
def DeathAnalysis.blame_score (a : DeathAnalysis) : ℚ :=
  let base : ℚ := (a.severity : ℚ) * 20
  let base := if a.teammate_distSq > 1000000 then base + 10 else base
  let base := if a.enemy_count ≥ 3 then base - 10 else base
  let base := if a.was_traded then base - 15 else base
  let base := if a.was_flashed then base - 5 else base
  max 0 (min 100 base)

/-- Live player performance stats (`PlayerStats`); `mistake_counts` is an
insertion-ordered association list, like the Python dict. -/
structure PlayerStats where
  name : String
  team : String
  kills : ℕ
  deaths : ℕ
  assists : ℕ
  total_blame : ℚ
  mistake_counts : List (String × ℕ)
  death_analyses : List DeathAnalysis
deriving DecidableEq

/-- A fresh `PlayerStats(name=..., team=...)` with the dataclass defaults. -/
def PlayerStats.fresh (name team : String) : PlayerStats :=
  ⟨name, team, 0, 0, 0, 0, [], []⟩

/-- `PlayerStats.kd_ratio`. -/
def PlayerStats.kd_ratio (s : PlayerStats) : ℚ :=
  (s.kills : ℚ) / ((max 1 s.deaths : ℕ) : ℚ)

/-- `PlayerStats.avg_blame`. -/
def PlayerStats.avg_blame (s : PlayerStats) : ℚ :=
  if s.death_analyses.isEmpty then 0
  else (s.death_analyses.map (fun d => d.blame_score)).sum / (s.death_analyses.length : ℚ)

/-- `PlayerStats.performance_score`. -/
def PlayerStats.performance_score (s : PlayerStats) : ℚ :=
  max 0 (s.kd_ratio * 40 - s.avg_blame * 0.4 + 20)

/-- `PlayerStats.rank_grade`. -/
def PlayerStats.rank_grade (s : PlayerStats) : String :=
  if s.performance_score ≥ 80 then "S"
  else if s.performance_score ≥ 65 then "A"
  else if s.performance_score ≥ 50 then "B"
  else if s.performance_score ≥ 35 then "C"
  else if s.performance_score ≥ 20 then "D"
  else "F"

/-- Squared analyzer thresholds (`ISOLATED_DISTANCE = 900`,
`CLOSE_SUPPORT = 400`, `SOLO_PUSH_DISTANCE = 1200`). -/
def ISOLATED_DISTANCE_SQ : ℚ := 810000

/-- `CLOSE_SUPPORT = 400`, squared. -/
def CLOSE_SUPPORT_SQ : ℚ := 160000

/-- `SOLO_PUSH_DISTANCE = 1200`, squared. -/
def SOLO_PUSH_DISTANCE_SQ : ℚ := 1440000

/-- The no-teammate sentinel `9999`, squared. -/
def SENTINEL_SQ : ℚ := 99980001

/-- `TRADE_WINDOW_TICKS = 192` (3 s). -/
def TRADE_WINDOW_TICKS : ℤ := 192

/-- `FLASH_EFFECT_TICKS = 96` (1.5 s). -/
def FLASH_EFFECT_TICKS : ℤ := 96

/-- The 45-degree sector index `int((atan2(dy, dx) + pi) / (pi / 4)) % 8`
of `_count_enemy_angles`, computed by sign comparisons.  With
`a = atan2(dy, dx) ∈ (-pi, pi]`, the index is `k` exactly when
`a ∈ [-pi + k*pi/4, -pi + (k+1)*pi/4)` (and index `8`, reached only at
`a = pi`, wraps to `0`).  The sector boundaries are the four half-axes and
the two diagonals, so membership is decided by the signs of `dx`, `dy` and
their comparisons: e.g. index 4 is `a ∈ [0, pi/4)`, i.e. `dx > 0` and
`0 ≤ dy < dx`.  Only called on vectors that are not both zero. -/
def sector (dx dy : ℚ) : ℕ :=
  if dy < 0 then
    if dx < 0 then
      if dx < dy then 0 else 1
    else
      if dx < -dy then 2 else 3
  else if dy = 0 then
    if dx < 0 then 0 else 4
  else
    if dx > 0 then
      if dy < dx then 4 else 5
    else
      if -dx < dy then 6 else 7

/-- The set of distinct occupied sectors of `_count_enemy_angles`
(a hostile exactly at the victim position is skipped), as a count. -/
def distinctSectors (pos : Pos) (enemies : List Player) : ℕ :=
  ((enemies.filterMap (fun e =>
      if e.x - pos.x = 0 ∧ e.y - pos.y = 0 then none
      else some (sector (e.x - pos.x) (e.y - pos.y)))).dedup).length

/-- `DeathAnalyzer._count_enemy_angles`: fewer than two enemies are returned
as their own count, otherwise the number of distinct occupied sectors. -/
def count_enemy_angles (pos : Pos) (enemies : List Player) : ℕ :=
  if enemies.length < 2 then enemies.length else distinctSectors pos enemies

/-- `DeathAnalyzer._get_victim_position`: event position if present, else the
snapshot entry named like the victim, else the origin sentinel. -/
def get_victim_position (kill_event : KillEvent) (players : List Player)
    (victim_name : String) : Pos :=
  match kill_event.victim_pos with
  | some p => p
  | none =>
    match players.find? (fun p => p.name == some victim_name) with
    | some p => ⟨p.x, p.y⟩
    | none => ⟨0, 0⟩

/-- `DeathAnalyzer._nearest_teammate_distance`, squared: `9999` (squared)
with no teammates, else the running minimum starting from `9999` (squared)
of the (squared) distances. -/
def nearest_teammate_distSq (pos : Pos) (teammates : List Player) : ℚ :=
  if teammates.isEmpty then SENTINEL_SQ
  else teammates.foldl (fun m t => min m (sqDist pos ⟨t.x, t.y⟩)) SENTINEL_SQ

/-- `DeathAnalyzer._check_if_traded`: some recent elimination's victim equals
the original attacker, strictly after the death tick and within the trade
window. -/
def check_if_traded (attacker_name : String) (recent_kills : List KillRecord)
    (tick : ℤ) : Bool :=
  recent_kills.any (fun k => k.victim == some attacker_name
    && decide (tick < k.tick.getD 0)
    && decide (k.tick.getD 0 ≤ tick + TRADE_WINDOW_TICKS))

/-- `DeathAnalyzer._was_victim_flashed` (`800` units, squared: `640000`). -/
def was_victim_flashed (pos : Pos) (flashes : List Flash) (tick : ℤ) : Bool :=
  flashes.any (fun f => decide (f.start ≤ tick)
    && decide (tick ≤ f.start + FLASH_EFFECT_TICKS)
    && decide (sqDist pos ⟨f.x, f.y⟩ < 640000))

/-- `DeathAnalyzer._in_molotov` (`180` units, squared: `32400`). -/
def in_molotov (pos : Pos) (mollies : List Molly) (tick : ℤ) : Bool :=
  mollies.any (fun m => decide (m.start ≤ tick) && decide (tick ≤ m.finish)
    && decide (sqDist pos ⟨m.x, m.y⟩ < 32400))

/-- The boolean facts that drive the rule cascade of `analyze_death`
(each is computed by the source exactly at its use site; none depends on the
accumulated mistakes or severity, so they are gathered before the cascade). -/
structure Facts where
  isolated : Bool
  crossfire : Bool
  solo : Bool
  flashed : Bool
  inMolly : Bool
  traded : Bool
  tradeable : Bool
  hasTeammate : Bool
  outnumbered : Bool
  lastAlive : Bool
  firstDeath : Bool
deriving DecidableEq

/-- The rule cascade of `analyze_death` (its numbered steps 1-9), carried
out verbatim on the gathered facts: each step appends its tag and raises the
running severity, the traded step instead lowers it by one with floor 1, and
the fallback step applies when nothing fired. -/
def classify (f : Facts) : List MistakeType × ℕ :=
  let mistakes : List MistakeType := []
  let severity : ℕ := 1
  -- 1. ISOLATED
  let (mistakes, severity) :=
    if f.isolated then (mistakes ++ [.ISOLATED], 5) else (mistakes, severity)
  -- 2. CROSSFIRE
  let (mistakes, severity) :=
    if f.crossfire then (mistakes ++ [.CROSSFIRE], max severity 5)
    else (mistakes, severity)
  -- 3. SOLO PUSH
  let (mistakes, severity) :=
    if f.solo then (mistakes ++ [.SOLO_PUSH], max severity 5)
    else (mistakes, severity)
  -- 4. FLASHED
  let (mistakes, severity) :=
    if f.flashed then (mistakes ++ [.FLASHED], max severity 3)
    else (mistakes, severity)
  -- 5. IN MOLLY
  let (mistakes, severity) :=
    if f.inMolly then (mistakes ++ [.IN_MOLLY], max severity 3)
    else (mistakes, severity)
  -- 6. TRADE CHECK
  let (mistakes, severity) :=
    if f.traded then (mistakes ++ [.TRADED], max 1 (severity - 1))
    else if f.tradeable && f.hasTeammate then
      if mistakes.contains .ISOLATED then (mistakes, severity)
      else (mistakes ++ [.NO_TRADE], max severity 4)
    else (mistakes, severity)
  -- 7. OUTNUMBERED
  let (mistakes, severity) :=
    if f.outnumbered then
      if f.lastAlive then (mistakes ++ [.CLUTCH_ATTEMPT], max severity 1)
      else (mistakes ++ [.OUTNUMBERED], max severity 3)
    else (mistakes, severity)
  -- 8. FIRST CONTACT
  let (mistakes, severity) :=
    if f.firstDeath && mistakes.isEmpty then
      (mistakes ++ [.FIRST_CONTACT], max severity 2)
    else (mistakes, severity)
  -- 9. Fair duel fallback
  if mistakes.isEmpty then ([.FAIR_DUEL], 1) else (mistakes, severity)

/-- The analyzer's mutable state (`DeathAnalyzer.__init__`); `player_stats`
is an insertion-ordered association list, like the Python dict. -/
structure DeathAnalyzer where
  death_history : List DeathAnalysis
  round_deaths : List DeathAnalysis
  current_round : ℤ
  round_death_order : ℕ
  player_stats : List (String × PlayerStats)
  round_kills : List KillRecord
deriving DecidableEq

/-- The freshly constructed analyzer. -/
def DeathAnalyzer.init : DeathAnalyzer := ⟨[], [], 0, 0, [], []⟩

/-- Update an insertion-ordered dict entry, inserting `init` first when the
key is absent (mirrors `if name not in d: d[name] = init` followed by
mutation of `d[name]`). -/
def updDict (d : List (String × PlayerStats)) (k : String) (init : PlayerStats)
    (f : PlayerStats → PlayerStats) : List (String × PlayerStats) :=
  if d.any (fun e => e.1 == k) then
    d.map (fun e => if e.1 == k then (e.1, f e.2) else e)
  else d ++ [(k, f init)]

/-- `d[key] = d.get(key, 0) + 1` on an insertion-ordered dict. -/
def bumpCount (d : List (String × ℕ)) (k : String) : List (String × ℕ) :=
  if d.any (fun e => e.1 == k) then
    d.map (fun e => if e.1 == k then (e.1, e.2 + 1) else e)
  else d ++ [(k, 1)]

/-- `DeathAnalyzer._update_player_stats`. -/
def DeathAnalyzer.update_player_stats (st : DeathAnalyzer)
    (analysis : DeathAnalysis) : DeathAnalyzer :=
  let touch : PlayerStats → PlayerStats := fun s =>
    { s with
      deaths := s.deaths + 1
      total_blame := s.total_blame + analysis.blame_score
      death_analyses := s.death_analyses ++ [analysis]
      mistake_counts :=
        bumpCount s.mistake_counts analysis.primary_mistake.value }
  let d := updDict st.player_stats analysis.victim_name
    (PlayerStats.fresh analysis.victim_name analysis.victim_team) touch
  { st with player_stats := d }

/-- The round-reset block at the top of `analyze_death` (its lines
"# Round reset"): on a round-number change the round-scoped caches are
swapped out. -/
def DeathAnalyzer.round_reset_step (st : DeathAnalyzer) (round_num : ℤ) :
    DeathAnalyzer :=
  if round_num ≠ st.current_round then
    { st with current_round := round_num, round_deaths := [],
              round_death_order := 0, round_kills := [] }
  else st

/-- `DeathAnalyzer.analyze_death`: the full judge call.  Returns the
post-call analyzer state and the produced analysis. -/
def DeathAnalyzer.analyze_death (st : DeathAnalyzer) (kill_event : KillEvent)
    (players : List Player) (_smokes : List Smoke) (mollies : List Molly)
    (flashes : List Flash) (recent_kills : List KillRecord)
    (tick : ℤ) (round_num : ℤ) : DeathAnalyzer × DeathAnalysis :=
  let st := st.round_reset_step round_num
  let st := { st with round_death_order := st.round_death_order + 1,
                      round_kills := st.round_kills ++ recent_kills }
  let victim_name := kill_event.victim.getD "?"
  let attacker_name := kill_event.attacker.getD "?"
  let victim_team := kill_event.victim_team.getD "CT"
  let victim_pos := get_victim_position kill_event players victim_name
  let teammates := players.filter (fun p => p.team == some victim_team
    && p.name != some victim_name && p.alive)
  let enemies := players.filter (fun p => p.team != some victim_team && p.alive)
  let tdistSq := nearest_teammate_distSq victim_pos teammates
  let enemy_count := enemies.length + 1
  let teammate_count := teammates.length
  let facts : Facts :=
    { isolated := decide (tdistSq > ISOLATED_DISTANCE_SQ)
      crossfire := decide (enemy_count ≥ 2)
        && decide (count_enemy_angles victim_pos enemies ≥ 2)
      solo := decide (tdistSq > SOLO_PUSH_DISTANCE_SQ)
        && decide (teammate_count ≥ 2)
      flashed := was_victim_flashed victim_pos flashes tick
      inMolly := in_molotov victim_pos mollies tick
      traded := check_if_traded attacker_name recent_kills tick
      tradeable := decide (tdistSq < CLOSE_SUPPORT_SQ)
      hasTeammate := decide (teammate_count > 0)
      outnumbered := decide (enemy_count > teammate_count + 2)
      lastAlive := decide (teammate_count = 0)
      firstDeath := decide (st.round_death_order = 1) }
  let r := classify facts
  let analysis : DeathAnalysis :=
    { victim_name := victim_name
      victim_team := victim_team
      attacker_name := attacker_name
      tick := tick
      round_num := round_num
      position := victim_pos
      mistakes := r.1
      severity := r.2
      was_tradeable := facts.tradeable
      was_traded := facts.traded
      teammate_distSq := tdistSq
      was_flashed := facts.flashed
      in_utility := facts.inMolly
      enemy_count := enemy_count
      teammate_count := teammate_count }
  let st := { st with death_history := st.death_history ++ [analysis],
                      round_deaths := st.round_deaths ++ [analysis] }
  (st.update_player_stats analysis, analysis)

/-- `DeathAnalyzer.reset_round`. -/
def DeathAnalyzer.reset_round (st : DeathAnalyzer) : DeathAnalyzer :=
  { st with round_deaths := [], round_death_order := 0 }

/-- `DeathAnalyzer.update_kill`. -/
def DeathAnalyzer.update_kill (st : DeathAnalyzer) (attacker_name team : String) :
    DeathAnalyzer :=
  let d := updDict st.player_stats attacker_name
    (PlayerStats.fresh attacker_name team) (fun s => { s with kills := s.kills + 1 })
  { st with player_stats := d }

/-- `DeathAnalyzer.get_rankings`: Python's stable `sorted` with key
`-performance_score`, i.e. a stable merge sort by descending performance. -/
def DeathAnalyzer.get_rankings (st : DeathAnalyzer) : List PlayerStats :=
  (st.player_stats.map Prod.snd).mergeSort
    (fun p q => decide (q.performance_score ≤ p.performance_score))

/-- The round-lifecycle fields of the radar replayer
(`radar/radar_replayer.py`) touched by its round-change handler: the
processed-event dedup set `analyzed_kills`, the recent-kills feed consulted
for trade resolution, and the owned analyzer.  (The handler also clears the
scoreboard and kill animations, which no claim concerns.) -/
structure ReplayerState where
  analyzed_kills : List String
  recent_kills : List KillRecord
  death_analyzer : DeathAnalyzer
deriving DecidableEq

/-- The round-change block of the replayer's `_update` (its lines
"# Reset on round change"): clears the dedup set and recent-kills feed and
calls `reset_round()` on the analyzer. -/
def ReplayerState.round_change (r : ReplayerState) : ReplayerState :=
  { r with analyzed_kills := [], recent_kills := [],
           death_analyzer := r.death_analyzer.reset_round }

/-- Specification-side reading of the severity rule (claim C2): the final
severity is obtained by taking the running maximum of the severities of the
rules that fired, in the order the source raises them, with the traded rule
lowering the running value by exactly one (floor 1) at its place in the
sequence.  Which rules fired is read off the judgment's final tag list. -/
def severityOfTags (ms : List MistakeType) : ℕ :=
  let pre := max (max (max (max (max 1
      (if ms.contains .ISOLATED then 5 else 1))
      (if ms.contains .CROSSFIRE then 5 else 1))
      (if ms.contains .SOLO_PUSH then 5 else 1))
      (if ms.contains .FLASHED then 3 else 1))
      (if ms.contains .IN_MOLLY then 3 else 1)
  let mid :=
    if ms.contains .TRADED then max 1 (pre - 1)
    else if ms.contains .NO_TRADE then max pre 4
    else pre
  if ms.contains .OUTNUMBERED then max mid 3
  else if ms.contains .CLUTCH_ATTEMPT then max mid 1
  else if ms.contains .FIRST_CONTACT then max mid 2
  else mid

/-- A concrete analysis carrying the given blame-relevant facts, used to
instantiate the blame-composition examples of claim C1.  The remaining
fields are arbitrary fixed values that `blame_score` never reads. -/
def mkBlameCase (sev : ℕ) (tds : ℚ) (ec : ℕ) (tr fl : Bool) : DeathAnalysis :=
  { victim_name := "v", victim_team := "CT", attacker_name := "a", tick := 0,
    round_num := 0, position := ⟨0, 0⟩, mistakes := [.FAIR_DUEL],
    severity := sev, was_tradeable := true, was_traded := tr,
    teammate_distSq := tds, was_flashed := fl, in_utility := false,
    enemy_count := ec, teammate_count := 1 }

/-- A living hostile at the given coordinates (claim C4's sector examples). -/
def mkHostile (x y : ℚ) : Player := ⟨some "e", some "T", true, x, y⟩

/-- The clamp of `blame_score` keeps every blame in `[0, 100]`. -/
theorem blame_bounds (a : DeathAnalysis) :
    0 ≤ a.blame_score ∧ a.blame_score ≤ 100 := by
  unfold DeathAnalysis.blame_score
  constructor
  · exact le_max_left _ _
  · exact max_le (by norm_num) (min_le_left _ _)

/-- The sequential modifier accumulation of `blame_score` equals the closed
clamp formula. -/
theorem blame_closed (a : DeathAnalysis) :
    a.blame_score = max 0 (min 100 ((a.severity : ℚ) * 20
      + (if a.teammate_distSq > 1000000 then (10 : ℚ) else 0)
      - (if a.enemy_count ≥ 3 then (10 : ℚ) else 0)
      - (if a.was_traded then (15 : ℚ) else 0)
      - (if a.was_flashed then (5 : ℚ) else 0))) := by
  unfold DeathAnalysis.blame_score
  split_ifs <;> ring_nf

/-- The rule cascade always yields a severity in `[1, 5]`, a non-empty tag
list, and a severity equal to the running-maximum reading `severityOfTags`
of the final tag list. -/
theorem classify_ok (i c s fl m t tr h o l fd : Bool) :
    1 ≤ (classify ⟨i,c,s,fl,m,t,tr,h,o,l,fd⟩).2 ∧
    (classify ⟨i,c,s,fl,m,t,tr,h,o,l,fd⟩).2 ≤ 5 ∧
    (classify ⟨i,c,s,fl,m,t,tr,h,o,l,fd⟩).1 ≠ [] ∧
    (classify ⟨i,c,s,fl,m,t,tr,h,o,l,fd⟩).2 =
      severityOfTags (classify ⟨i,c,s,fl,m,t,tr,h,o,l,fd⟩).1 := by
  revert i c s fl m t tr h o l fd
  decide

/-- C1: for every judgment, the blame score equals
`clamp(severity * 20 + isolationBonus - crowdDiscount - tradeDiscount -
blindDiscount, 0, 100)` with `isolationBonus = 10` iff the isolation
distance exceeds 1000 (squared: 1000000), `crowdDiscount = 10` iff the
hostile count is at least 3, `tradeDiscount = 15` iff traded,
`blindDiscount = 5` iff blind-exposed; it is a pure function of the
judgment's recorded facts.  In particular severity 5 alone gives 100,
severity 4 plus isolation bonus gives 90, all four modifiers on severity 5
give 80, and severity 1 with trade, blind and crowd discounts clamps to 0. -/
theorem blame_score_spec :
    (∀ a : DeathAnalysis, a.blame_score = max 0 (min 100 ((a.severity : ℚ) * 20
      + (if a.teammate_distSq > 1000000 then (10 : ℚ) else 0)
      - (if a.enemy_count ≥ 3 then (10 : ℚ) else 0)
      - (if a.was_traded then (15 : ℚ) else 0)
      - (if a.was_flashed then (5 : ℚ) else 0)))) ∧
    (mkBlameCase 5 250000 1 false false).blame_score = 100 ∧
    (mkBlameCase 4 2250000 1 false false).blame_score = 90 ∧
    (mkBlameCase 5 2250000 3 true true).blame_score = 80 ∧
    (mkBlameCase 1 250000 3 true true).blame_score = 0 :=
  ⟨blame_closed, by decide, by decide, by decide, by decide⟩

/-- C2: every judgment of one `analyze_death` call has severity in
`[1, 5]`, blame in `[0, 100]` and a non-empty mistake-tag list, and its
severity is the running maximum of the severities of the rules that fired,
never lowered by a later rule except for the traded rule's reduction by
exactly one with floor 1 (the reading `severityOfTags` of the tag list). -/
theorem judgment_invariants (st : DeathAnalyzer) (ke : KillEvent)
    (players : List Player) (sm : List Smoke) (mo : List Molly)
    (fl : List Flash) (re : List KillRecord) (t r : ℤ) :
    let a := (st.analyze_death ke players sm mo fl re t r).2
    1 ≤ a.severity ∧ a.severity ≤ 5 ∧ a.mistakes ≠ [] ∧
    0 ≤ a.blame_score ∧ a.blame_score ≤ 100 ∧
    a.severity = severityOfTags a.mistakes := by
  intro a
  have hb := blame_bounds a
  refine ⟨?_, ?_, ?_, hb.1, hb.2, ?_⟩
  · simp only [DeathAnalyzer.analyze_death, a]
    exact (classify_ok _ _ _ _ _ _ _ _ _ _ _).1
  · simp only [DeathAnalyzer.analyze_death, a]
    exact (classify_ok _ _ _ _ _ _ _ _ _ _ _).2.1
  · simp only [DeathAnalyzer.analyze_death, a]
    exact (classify_ok _ _ _ _ _ _ _ _ _ _ _).2.2.1
  · simp only [DeathAnalyzer.analyze_death, a]
    exact (classify_ok _ _ _ _ _ _ _ _ _ _ _).2.2.2

/-- The ISOLATED tag appears in the cascade's output exactly when the
isolated fact holds. -/
theorem classify_mem_isolated (i c s fl m t tr h o l fd : Bool) :
    MistakeType.ISOLATED ∈ (classify ⟨i,c,s,fl,m,t,tr,h,o,l,fd⟩).1 ↔ i = true := by
  revert i c s fl m t tr h o l fd
  decide

/-- The CROSSFIRE tag appears in the cascade's output exactly when the
crossfire fact holds. -/
theorem classify_mem_crossfire (i c s fl m t tr h o l fd : Bool) :
    MistakeType.CROSSFIRE ∈ (classify ⟨i,c,s,fl,m,t,tr,h,o,l,fd⟩).1 ↔ c = true := by
  revert i c s fl m t tr h o l fd
  decide

/-- The NO_TRADE tag appears in the cascade's output exactly when the death
was not traded, was tradeable, a teammate lived, and ISOLATED did not fire. -/
theorem classify_mem_no_trade (i c s fl m t tr h o l fd : Bool) :
    MistakeType.NO_TRADE ∈ (classify ⟨i,c,s,fl,m,t,tr,h,o,l,fd⟩).1 ↔
      (t = false ∧ tr = true ∧ h = true ∧ i = false) := by
  revert i c s fl m t tr h o l fd
  decide

/-- A cascade output containing NO_TRADE carries severity at least 4. -/
theorem classify_no_trade_sev (i c s fl m t tr h o l fd : Bool) :
    MistakeType.NO_TRADE ∈ (classify ⟨i,c,s,fl,m,t,tr,h,o,l,fd⟩).1 →
      4 ≤ (classify ⟨i,c,s,fl,m,t,tr,h,o,l,fd⟩).2 := by
  revert i c s fl m t tr h o l fd
  decide

/-- C3: a judgment's traded flag is true exactly when some elimination in
the recent-eliminations list has the original attacker as victim and a tick
strictly after the death tick but within 192 ticks of it; an elimination of
the attacker exactly at `deathTick + 192` counts as traded, one exactly at
`deathTick` does not, and one at `deathTick + 193` does not. -/
theorem traded_window_spec :
    (∀ (st : DeathAnalyzer) (ke : KillEvent) (players : List Player)
      (sm : List Smoke) (mo : List Molly) (fl : List Flash)
      (re : List KillRecord) (t r : ℤ),
      ((st.analyze_death ke players sm mo fl re t r).2.was_traded = true ↔
        ∃ k ∈ re, k.victim = some (ke.attacker.getD "?") ∧
          t < k.tick.getD 0 ∧ k.tick.getD 0 ≤ t + 192)) ∧
    (DeathAnalyzer.init.analyze_death ⟨some "v", some "att", some "T", some ⟨0,0⟩⟩
      [] [] [] [] [⟨some "att", some 1192⟩] 1000 1).2.was_traded = true ∧
    (DeathAnalyzer.init.analyze_death ⟨some "v", some "att", some "T", some ⟨0,0⟩⟩
      [] [] [] [] [⟨some "att", some 1000⟩] 1000 1).2.was_traded = false ∧
    (DeathAnalyzer.init.analyze_death ⟨some "v", some "att", some "T", some ⟨0,0⟩⟩
      [] [] [] [] [⟨some "att", some 1193⟩] 1000 1).2.was_traded = false := by
  refine ⟨fun st ke players sm mo fl re t r => ?_, by decide, by decide, by decide⟩
  simp only [DeathAnalyzer.analyze_death, check_if_traded, TRADE_WINDOW_TICKS,
    List.any_eq_true, Bool.and_eq_true, decide_eq_true_iff, beq_iff_eq]
  tauto

/-- The distinct-sector count never exceeds the number of hostiles. -/
theorem distinctSectors_le_length (pos : Pos) (es : List Player) :
    distinctSectors pos es ≤ es.length :=
  le_trans (List.Sublist.length_le (List.dedup_sublist _))
    (List.length_filterMap_le _ _)

/-- C4: the CROSSFIRE tag is raised exactly when at least two distinct
45-degree sectors are occupied by living hostiles (hostiles at the victim's
exact position being skipped) and the total hostile count
(living enemies + attacker) is at least 2; two hostiles collinear with the
victim occupy 1 sector, hostiles at bearings 0 and 90 degrees occupy 2, and
hostiles at bearings 0/90/180/270 degrees occupy 4. -/
theorem crossfire_spec :
    (∀ (st : DeathAnalyzer) (ke : KillEvent) (players : List Player)
      (sm : List Smoke) (mo : List Molly) (fl : List Flash)
      (re : List KillRecord) (t r : ℤ),
      let a := (st.analyze_death ke players sm mo fl re t r).2
      let enemies := players.filter (fun p =>
        p.team != some (ke.victim_team.getD "CT") && p.alive)
      (MistakeType.CROSSFIRE ∈ a.mistakes ↔
        2 ≤ distinctSectors a.position enemies ∧ 2 ≤ a.enemy_count)) ∧
    distinctSectors ⟨0, 0⟩ [mkHostile 100 0, mkHostile 200 0] = 1 ∧
    distinctSectors ⟨0, 0⟩ [mkHostile 100 0, mkHostile 0 100] = 2 ∧
    distinctSectors ⟨0, 0⟩ [mkHostile 100 0, mkHostile 0 100,
      mkHostile (-100) 0, mkHostile 0 (-100)] = 4 := by
  refine ⟨fun st ke players sm mo fl re t r => ?_, by decide, by decide, by decide⟩
  intro a enemies
  simp only [DeathAnalyzer.analyze_death, a, enemies]
  rw [(classify_mem_crossfire _ _ _ _ _ _ _ _ _ _ _)]
  simp only [Bool.and_eq_true, decide_eq_true_iff, count_enemy_angles]
  constructor
  · rintro ⟨h1, h2⟩
    split at h2
    · omega
    · exact ⟨h2, h1⟩
  · rintro ⟨h1, h2⟩
    have hle := distinctSectors_le_length
      (get_victim_position ke players (ke.victim.getD "?"))
      (players.filter (fun p => p.team != some (ke.victim_team.getD "CT") && p.alive))
    constructor
    · omega
    · split
      · omega
      · exact h1

/-- C5 counterexample: `reset_round()` does not clear the analyzer's
round-scoped recent-eliminations buffer (`round_kills`), so after an
explicit `reset_round()` call on a state holding one buffered elimination
the buffer is not empty, contradicting the claim. -/
theorem reset_round_keeps_buffer :
    (DeathAnalyzer.reset_round
      ⟨[], [], 0, 3, [], [⟨some "a", some 5⟩]⟩).round_kills ≠ [] := by
  decide

/-- C5 amended: the round-transition reset inside a judge call whose round
number differs from the tracked round clears the analyzer's round-scoped
caches (death-ordering counter 0, recent-eliminations buffer empty,
round-deaths list empty); an explicit `reset_round()` call resets the
counter and the round-deaths list but leaves the analyzer's
recent-eliminations buffer unchanged; the processed-event dedup set belongs
to the replayer, whose round-change handler empties it and the recent-kills
feed while calling `reset_round()`. -/
theorem round_lifecycle (st : DeathAnalyzer) (r : ℤ) (rs : ReplayerState) :
    (r ≠ st.current_round →
      (st.round_reset_step r).round_death_order = 0 ∧
      (st.round_reset_step r).round_kills = [] ∧
      (st.round_reset_step r).round_deaths = []) ∧
    (st.reset_round.round_death_order = 0 ∧ st.reset_round.round_deaths = [] ∧
      st.reset_round.round_kills = st.round_kills) ∧
    (rs.round_change.analyzed_kills = [] ∧ rs.round_change.recent_kills = [] ∧
      rs.round_change.death_analyzer = rs.death_analyzer.reset_round) := by
  refine ⟨fun h => ?_, ⟨rfl, rfl, rfl⟩, ⟨rfl, rfl, rfl⟩⟩
  unfold DeathAnalyzer.round_reset_step
  rw [if_pos h]
  exact ⟨rfl, rfl, rfl⟩

/-- C5 witness: the round-transition reset at a concrete state. -/
theorem round_lifecycle_witness :
    ((DeathAnalyzer.mk [] [] 0 3 [] [⟨some "a", some 5⟩]).round_reset_step 1).round_death_order = 0 ∧
    ((DeathAnalyzer.mk [] [] 0 3 [] [⟨some "a", some 5⟩]).round_reset_step 1).round_kills = [] :=
  ⟨((round_lifecycle ⟨[], [], 0, 3, [], [⟨some "a", some 5⟩]⟩ 1
      ⟨[], [], DeathAnalyzer.init⟩).1 (by decide)).1,
   ((round_lifecycle ⟨[], [], 0, 3, [], [⟨some "a", some 5⟩]⟩ 1
      ⟨[], [], DeathAnalyzer.init⟩).1 (by decide)).2.1⟩

/-- C6: neither `reset_round()` nor the round-transition reset inside a
judge call mutates the per-combatant ledger: the ledger dict, the derived
rankings, and every combatant's kills, deaths, accumulated blame, recorded
judgments and derived grade are unchanged. -/
theorem resets_preserve_ledger (st : DeathAnalyzer) (r : ℤ) :
    st.reset_round.player_stats = st.player_stats ∧
    (st.round_reset_step r).player_stats = st.player_stats ∧
    st.reset_round.get_rankings = st.get_rankings ∧
    (st.round_reset_step r).get_rankings = st.get_rankings ∧
    st.reset_round.player_stats.map
        (fun e => (e.2.kills, e.2.deaths, e.2.total_blame, e.2.death_analyses,
          e.2.rank_grade))
      = st.player_stats.map
        (fun e => (e.2.kills, e.2.deaths, e.2.total_blame, e.2.death_analyses,
          e.2.rank_grade)) := by
  unfold DeathAnalyzer.round_reset_step
  refine ⟨rfl, ?_, rfl, ?_, rfl⟩ <;> split <;> rfl

/-- C7: `get_rankings` returns the ledger entries as a permutation sorted in
descending order of performance score, and any two entries with equal
performance scores keep their relative ledger (insertion) order. -/
theorem rankings_spec (st : DeathAnalyzer) :
    (st.get_rankings).Perm (st.player_stats.map Prod.snd) ∧
    st.get_rankings.Pairwise
      (fun p q => q.performance_score ≤ p.performance_score) ∧
    (∀ p q : PlayerStats, p.performance_score = q.performance_score →
      [p, q].Sublist (st.player_stats.map Prod.snd) →
      [p, q].Sublist st.get_rankings) := by
  have htrans : ∀ a b c : PlayerStats,
      (decide (b.performance_score ≤ a.performance_score)) = true →
      (decide (c.performance_score ≤ b.performance_score)) = true →
      (decide (c.performance_score ≤ a.performance_score)) = true := by
    intro a b c h1 h2
    simp only [decide_eq_true_iff] at *
    exact le_trans h2 h1
  have htotal : ∀ a b : PlayerStats,
      ((decide (b.performance_score ≤ a.performance_score))
        || (decide (a.performance_score ≤ b.performance_score))) = true := by
    intro a b
    simp only [Bool.or_eq_true, decide_eq_true_iff]
    exact le_total _ _
  refine ⟨List.mergeSort_perm _ _, ?_, ?_⟩
  · exact (List.sorted_mergeSort htrans htotal _).imp (fun h => of_decide_eq_true h)
  · intro p q hpq hsub
    exact List.sublist_mergeSort htrans htotal
      (by simp [hpq, List.pairwise_pair]) hsub

/-- C7 witness: two fresh combatants have equal performance scores, and the
rankings of a two-entry ledger keep their insertion order. -/
theorem rankings_spec_witness :
    [PlayerStats.fresh "a" "CT", PlayerStats.fresh "b" "CT"].Sublist
      (DeathAnalyzer.get_rankings
        ⟨[], [], 0, 0, [("a", PlayerStats.fresh "a" "CT"),
                        ("b", PlayerStats.fresh "b" "CT")], []⟩) :=
  (rankings_spec _).2.2 _ _ (by decide) (List.Sublist.refl _)

/-- With no event position and no snapshot entry named like the victim, the
victim position falls back to the origin sentinel. -/
theorem get_victim_position_default (ke : KillEvent) (players : List Player)
    (vn : String) (h : ke.victim_pos = none)
    (h2 : players.find? (fun p => p.name == some vn) = none) :
    get_victim_position ke players vn = ⟨0, 0⟩ := by
  simp [get_victim_position, h, h2]

/-- The nearest-teammate search over an empty list is the sentinel. -/
theorem nearest_nil (p : Pos) : nearest_teammate_distSq p [] = SENTINEL_SQ := rfl

/-- A judgment carries the ISOLATED tag exactly when its recorded isolation
distance (squared) exceeds the isolation threshold (squared). -/
theorem analyze_isolated_iff (st : DeathAnalyzer) (ke : KillEvent)
    (players : List Player) (sm : List Smoke) (mo : List Molly)
    (fl : List Flash) (re : List KillRecord) (t r : ℤ) :
    MistakeType.ISOLATED ∈ (st.analyze_death ke players sm mo fl re t r).2.mistakes ↔
      ISOLATED_DISTANCE_SQ <
        (st.analyze_death ke players sm mo fl re t r).2.teammate_distSq := by
  simp only [DeathAnalyzer.analyze_death]
  rw [classify_mem_isolated, decide_eq_true_iff]

/-- A judge call with no event position and no matching snapshot entry
reports the origin as victim position. -/
theorem analyze_pos_default (st : DeathAnalyzer) (ke : KillEvent)
    (players : List Player) (sm : List Smoke) (mo : List Molly)
    (fl : List Flash) (re : List KillRecord) (t r : ℤ)
    (h : ke.victim_pos = none)
    (h2 : players.find? (fun p => p.name == some (ke.victim.getD "?")) = none) :
    (st.analyze_death ke players sm mo fl re t r).2.position = ⟨0, 0⟩ := by
  have hp : (st.analyze_death ke players sm mo fl re t r).2.position
      = get_victim_position ke players (ke.victim.getD "?") := by
    simp only [DeathAnalyzer.analyze_death]
  rw [hp, get_victim_position_default _ _ _ h h2]

/-- A judge call on an empty snapshot reports the sentinel isolation
distance. -/
theorem analyze_empty_distSq (st : DeathAnalyzer) (ke : KillEvent)
    (sm : List Smoke) (mo : List Molly) (fl : List Flash)
    (re : List KillRecord) (t r : ℤ) :
    (st.analyze_death ke [] sm mo fl re t r).2.teammate_distSq = SENTINEL_SQ := by
  simp only [DeathAnalyzer.analyze_death, List.filter_nil]
  rfl

/-- A judge call on an empty snapshot raises ISOLATED. -/
theorem analyze_empty_isolated (st : DeathAnalyzer) (ke : KillEvent)
    (sm : List Smoke) (mo : List Molly) (fl : List Flash)
    (re : List KillRecord) (t r : ℤ) :
    MistakeType.ISOLATED ∈ (st.analyze_death ke [] sm mo fl re t r).2.mistakes := by
  rw [analyze_isolated_iff, analyze_empty_distSq]
  norm_num [SENTINEL_SQ, ISOLATED_DISTANCE_SQ]

/-- A judge call with no victim-team string uses the fallback team. -/
theorem analyze_team_default (st : DeathAnalyzer) (ke : KillEvent)
    (sm : List Smoke) (mo : List Molly) (fl : List Flash)
    (re : List KillRecord) (t r : ℤ) (h : ke.victim_team = none) :
    (st.analyze_death ke [] sm mo fl re t r).2.victim_team = "CT" := by
  simp only [DeathAnalyzer.analyze_death, h]
  rfl

/-- C8: the judge operation never raises on malformed input: a missing
victim position (with no matching snapshot entry) yields the origin
sentinel as victim position; an empty snapshot yields the no-teammates
sentinel isolation distance and hence the ISOLATED tag; a missing
victim-team string defaults to the fallback team "CT" — and the call still
returns a judgment (the embedding is a total function). -/
theorem degraded_inputs (st : DeathAnalyzer) (ke : KillEvent)
    (players : List Player) (sm : List Smoke) (mo : List Molly)
    (fl : List Flash) (re : List KillRecord) (t r : ℤ) :
    (ke.victim_pos = none →
      players.find? (fun p => p.name == some (ke.victim.getD "?")) = none →
      (st.analyze_death ke players sm mo fl re t r).2.position = ⟨0, 0⟩) ∧
    (st.analyze_death ke [] sm mo fl re t r).2.teammate_distSq = SENTINEL_SQ ∧
    MistakeType.ISOLATED ∈ (st.analyze_death ke [] sm mo fl re t r).2.mistakes ∧
    (ke.victim_team = none →
      (st.analyze_death ke [] sm mo fl re t r).2.victim_team = "CT") :=
  ⟨fun h h2 => analyze_pos_default st ke players sm mo fl re t r h h2,
   analyze_empty_distSq st ke sm mo fl re t r,
   analyze_empty_isolated st ke sm mo fl re t r,
   fun h => analyze_team_default st ke sm mo fl re t r h⟩

/-- C8 witness: a kill event with no position and no team, judged against an
empty snapshot, still yields a judgment with the documented fallbacks. -/
theorem degraded_inputs_witness :
    ((DeathAnalyzer.init.analyze_death ⟨some "v", some "att", none, none⟩
        [] [] [] [] [] 0 1).2.position = ⟨0, 0⟩) ∧
    ((DeathAnalyzer.init.analyze_death ⟨some "v", some "att", none, none⟩
        [] [] [] [] [] 0 1).2.teammate_distSq = SENTINEL_SQ) ∧
    (MistakeType.ISOLATED ∈ (DeathAnalyzer.init.analyze_death
        ⟨some "v", some "att", none, none⟩ [] [] [] [] [] 0 1).2.mistakes) ∧
    ((DeathAnalyzer.init.analyze_death ⟨some "v", some "att", none, none⟩
        [] [] [] [] [] 0 1).2.victim_team = "CT") := by
  have h := degraded_inputs DeathAnalyzer.init ⟨some "v", some "att", none, none⟩
    [] [] [] [] [] 0 1
  exact ⟨h.1 rfl rfl, h.2.1, h.2.2.1, h.2.2.2 rfl⟩

/-- C9: the NO_TRADE tag is raised exactly when the death was not traded,
the nearest living teammate was strictly within the close-support threshold,
at least one living teammate existed, and ISOLATED was not raised; and a
NO_TRADE judgment carries severity at least 4. -/
theorem no_trade_spec (st : DeathAnalyzer) (ke : KillEvent)
    (players : List Player) (sm : List Smoke) (mo : List Molly)
    (fl : List Flash) (re : List KillRecord) (t r : ℤ) :
    let a := (st.analyze_death ke players sm mo fl re t r).2
    (MistakeType.NO_TRADE ∈ a.mistakes ↔
      (a.was_traded = false ∧ a.teammate_distSq < CLOSE_SUPPORT_SQ ∧
        0 < a.teammate_count ∧ MistakeType.ISOLATED ∉ a.mistakes)) ∧
    (MistakeType.NO_TRADE ∈ a.mistakes → 4 ≤ a.severity) := by
  intro a
  constructor
  · simp only [DeathAnalyzer.analyze_death, a]
    rw [(classify_mem_no_trade _ _ _ _ _ _ _ _ _ _ _),
        (classify_mem_isolated _ _ _ _ _ _ _ _ _ _ _)]
    simp only [decide_eq_true_iff, Bool.not_eq_true, decide_eq_false_iff_not]
  · simp only [DeathAnalyzer.analyze_death, a]
    exact classify_no_trade_sev _ _ _ _ _ _ _ _ _ _ _

/-- C9 witness: an untraded death with a living teammate 100 units away
yields a NO_TRADE judgment of severity at least 4. -/
theorem no_trade_spec_witness :
    4 ≤ (DeathAnalyzer.init.analyze_death ⟨some "v", some "att", some "T", some ⟨0,0⟩⟩
      [⟨some "m", some "T", true, 100, 0⟩] [] [] [] [] 0 1).2.severity :=
  (no_trade_spec DeathAnalyzer.init ⟨some "v", some "att", some "T", some ⟨0,0⟩⟩
    [⟨some "m", some "T", true, 100, 0⟩] [] [] [] [] 0 1).2 (by decide)

/-- A left fold of running minima never exceeds its initial value. -/
theorem foldl_min_le_init {α : Type} (g : α → ℚ) (l : List α) (a : ℚ) :
    l.foldl (fun m t => min m (g t)) a ≤ a := by
  induction l generalizing a with
  | nil => exact le_refl a
  | cons x xs ih => exact le_trans (ih (min a (g x))) (min_le_left a (g x))

/-- A left fold of running minima never exceeds any listed value. -/
theorem foldl_min_le_mem {α : Type} (g : α → ℚ) (l : List α) (a : ℚ) {x : α}
    (hx : x ∈ l) : l.foldl (fun m t => min m (g t)) a ≤ g x := by
  induction l generalizing a with
  | nil => cases hx
  | cons y ys ih =>
    rcases List.mem_cons.mp hx with h | h
    · subst h
      exact le_trans (foldl_min_le_init g ys _) (min_le_right a (g x))
    · exact ih (min a (g y)) h

/-- A left fold of running minima is the initial value or a listed value. -/
theorem foldl_min_eq_init_or_mem {α : Type} (g : α → ℚ) (l : List α) (a : ℚ) :
    l.foldl (fun m t => min m (g t)) a = a ∨
      ∃ x ∈ l, l.foldl (fun m t => min m (g t)) a = g x := by
  induction l generalizing a with
  | nil => exact Or.inl rfl
  | cons y ys ih =>
    rw [List.foldl_cons]
    rcases ih (min a (g y)) with h | ⟨x, hx, hfx⟩
    · rcases le_total a (g y) with hay | hya
      · exact Or.inl (h.trans (min_eq_left hay))
      · exact Or.inr ⟨y, List.mem_cons_self y ys, h.trans (min_eq_right hya)⟩
    · exact Or.inr ⟨x, List.mem_cons_of_mem y hx, hfx⟩

/-- The nearest-teammate search is capped by the sentinel. -/
theorem nearest_le_sentinel (p : Pos) (ts : List Player) :
    nearest_teammate_distSq p ts ≤ SENTINEL_SQ := by
  unfold nearest_teammate_distSq
  split
  · exact le_refl _
  · exact foldl_min_le_init _ ts SENTINEL_SQ

/-- The nearest-teammate search is below every teammate's distance. -/
theorem nearest_le_mem (p : Pos) (ts : List Player) {t : Player} (ht : t ∈ ts) :
    nearest_teammate_distSq p ts ≤ sqDist p ⟨t.x, t.y⟩ := by
  unfold nearest_teammate_distSq
  split
  · rename_i he
    rw [List.isEmpty_iff] at he
    subst he
    cases ht
  · exact foldl_min_le_mem _ ts SENTINEL_SQ ht

/-- The nearest-teammate search returns the sentinel or some teammate's
distance. -/
theorem nearest_eq_sentinel_or_mem (p : Pos) (ts : List Player) :
    nearest_teammate_distSq p ts = SENTINEL_SQ ∨
      ∃ t ∈ ts, nearest_teammate_distSq p ts = sqDist p ⟨t.x, t.y⟩ := by
  unfold nearest_teammate_distSq
  split
  · exact Or.inl rfl
  · exact foldl_min_eq_init_or_mem _ ts SENTINEL_SQ

/-- When every teammate is farther than the sentinel, the search returns
exactly the sentinel. -/
theorem nearest_far (p : Pos) (ts : List Player)
    (h : ∀ t ∈ ts, SENTINEL_SQ < sqDist p ⟨t.x, t.y⟩) :
    nearest_teammate_distSq p ts = SENTINEL_SQ := by
  rcases nearest_eq_sentinel_or_mem p ts with he | ⟨t, ht, hft⟩
  · exact he
  · have h1 := nearest_le_sentinel p ts
    have h2 := h t ht
    rw [hft] at h1
    exact absurd (lt_of_lt_of_le h2 h1) (lt_irrefl _)

/-- C10: the reported isolation distance (squared here, the comparisons
being monotone) is the minimum of the sentinel `9999` (squared: `99980001`)
and the distance to the nearest living teammate: it is the sentinel when no
teammate exists, it never exceeds the sentinel or any teammate's distance,
it is the sentinel or an attained teammate distance, it is exactly the
sentinel when every teammate lies beyond the sentinel — and a judgment
whose reported isolation distance equals the sentinel carries the ISOLATED
tag and satisfies the isolation (`> 900`), solo-push distance (`> 1200`)
and blame-bonus (`> 1000`) conditions, all squared. -/
theorem sentinel_isolation_spec :
    (∀ p : Pos, nearest_teammate_distSq p [] = SENTINEL_SQ) ∧
    (∀ (p : Pos) (ts : List Player), nearest_teammate_distSq p ts ≤ SENTINEL_SQ) ∧
    (∀ (p : Pos) (ts : List Player) (t : Player), t ∈ ts →
      nearest_teammate_distSq p ts ≤ sqDist p ⟨t.x, t.y⟩) ∧
    (∀ (p : Pos) (ts : List Player), nearest_teammate_distSq p ts = SENTINEL_SQ ∨
      ∃ t ∈ ts, nearest_teammate_distSq p ts = sqDist p ⟨t.x, t.y⟩) ∧
    (∀ (p : Pos) (ts : List Player),
      (∀ t ∈ ts, SENTINEL_SQ < sqDist p ⟨t.x, t.y⟩) →
      nearest_teammate_distSq p ts = SENTINEL_SQ) ∧
    (∀ (st : DeathAnalyzer) (ke : KillEvent) (players : List Player)
      (sm : List Smoke) (mo : List Molly) (fl : List Flash)
      (re : List KillRecord) (t r : ℤ),
      (st.analyze_death ke players sm mo fl re t r).2.teammate_distSq = SENTINEL_SQ →
      MistakeType.ISOLATED ∈ (st.analyze_death ke players sm mo fl re t r).2.mistakes ∧
      ISOLATED_DISTANCE_SQ < (st.analyze_death ke players sm mo fl re t r).2.teammate_distSq ∧
      SOLO_PUSH_DISTANCE_SQ < (st.analyze_death ke players sm mo fl re t r).2.teammate_distSq ∧
      (1000000 : ℚ) < (st.analyze_death ke players sm mo fl re t r).2.teammate_distSq) := by
  refine ⟨nearest_nil, nearest_le_sentinel, fun p ts t ht => nearest_le_mem p ts ht,
    nearest_eq_sentinel_or_mem, nearest_far,
    fun st ke players sm mo fl re t r h => ?_⟩
  rw [analyze_isolated_iff, h]
  norm_num [SENTINEL_SQ, ISOLATED_DISTANCE_SQ, SOLO_PUSH_DISTANCE_SQ]

/-- C10 witness: a single living teammate 10000 units away (beyond the
sentinel) reports exactly the sentinel, and a judgment whose reported
isolation distance is the sentinel carries the ISOLATED tag. -/
theorem sentinel_isolation_witness :
    nearest_teammate_distSq ⟨0, 0⟩ [⟨some "m", some "T", true, 10000, 0⟩]
      = SENTINEL_SQ ∧
    MistakeType.ISOLATED ∈ (DeathAnalyzer.init.analyze_death
      ⟨some "v", some "att", some "T", some ⟨0, 0⟩⟩ [] [] [] [] [] 0 1).2.mistakes :=
  ⟨sentinel_isolation_spec.2.2.2.2.1 ⟨0, 0⟩
      [⟨some "m", some "T", true, 10000, 0⟩] (by decide),
   (sentinel_isolation_spec.2.2.2.2.2 DeathAnalyzer.init
      ⟨some "v", some "att", some "T", some ⟨0, 0⟩⟩ [] [] [] [] [] 0 1
      (by decide)).1⟩

end Sacrilege
